import Mathlib

/-!
Verification of the ThinkInk payment/subscription reconciliation core.

The Go source is shallowly embedded as follows:

* `User` models the billing-relevant part of `models.User` (src/unnamed/part_006):
  the Go `*string` / `*time.Time` pointer fields become `Option String` /
  `Option Int` (timestamps as unix seconds, matching the `int64` the code uses).
  Profile fields (name, email, ...) that no payment operation reads or writes
  are omitted.
* The database is a list of users; GORM's `db.Model(u).Updates(...)` keyed by
  primary key becomes `dbUpdateById`, and a fallible write is `dbWrite` guarded
  by a per-call-site success flag taken from the `StripeBackend` oracle.
* Outbound Stripe calls (`customer.New`, `session.New`, `sub.Get`, `sub.Update`,
  `customer.Get`) and per-write database outcomes are collected into the
  `StripeBackend` oracle so theorems quantify over every provider behaviour.
* `webhook.ConstructEvent` (signature verification plus envelope parse, SDK
  code) is a function parameter of `stripeWebhookHandler`; a `none` result is a
  failed verification/parse.  The per-type `json.Unmarshal` of
  `event.Data.Raw` is modelled by the `EventPayload` variant carried by the
  event: unmarshalling into the type the `switch` arm expects succeeds exactly
  when the payload is of that variant.
-/

namespace ThinkInk

/-- Billing projection of `models.User` (src/unnamed/part_006, struct `User`).
`id` is the GORM primary key; the six Stripe fields are the pointer fields of
the Go struct, `nil` = `none`. -/
structure User where
  id : Nat
  stripeCustomerID : Option String
  stripeDefaultPM : Option String
  currentPlanID : Option String
  subscriptionID : Option String
  subscriptionStatus : Option String
  subscriptionEndsAt : Option Int
deriving DecidableEq

/-- In-memory effect of `User.UpdateStripeData` (part_006 lines 70-77): both
Stripe identity fields are assigned unconditionally, whatever the arguments. -/
def updateStripeData (u : User) (customerID defaultPM : String) : User :=
  { u with stripeCustomerID := some customerID, stripeDefaultPM := some defaultPM }

/-- In-memory effect of `User.UpdateSubscriptionData` (part_006 lines 80-92):
all four subscription fields are assigned together. -/
def updateSubscriptionData (u : User) (subscriptionID planID status : String)
    (endsAt : Option Int) : User :=
  { u with subscriptionID := some subscriptionID, currentPlanID := some planID,
           subscriptionStatus := some status, subscriptionEndsAt := endsAt }

/-- Model of `User.IsSubscribed` (part_006 lines 95-100). -/
def isSubscribed (u : User) : Bool :=
  match u.subscriptionStatus with
  | none => false
  | some s => s = "active" || s = "trialing"

/-- GORM `Updates` keyed by primary key: rewrite the row(s) whose id matches. -/
def dbUpdateById (db : List User) (uid : Nat) (f : User → User) : List User :=
  db.map (fun u => if u.id = uid then f u else u)

/-- A fallible database write: applied when the oracle says the write
succeeds, otherwise the database is untouched (the GORM call returns an
error that callers log or surface). -/
def dbWrite (ok : Bool) (db : List User) (uid : Nat) (f : User → User) : List User :=
  if ok then dbUpdateById db uid f else db

/-- Model of `models.FindUserByID` (part_006 lines 249-258). -/
def findUserByID (db : List User) (uid : Nat) : Option User :=
  db.find? (fun u => decide (u.id = uid))

/-- Model of `db.Where("stripe_customer_id = ?", cid).First(&user)`
(src/handlers/payment.go lines 499, 532, 558). -/
def findUserByCustomerID (db : List User) (cid : String) : Option User :=
  db.find? (fun u => decide (u.stripeCustomerID = some cid))

/-- Stripe subscription object as the handlers read it: `Items.Data[i].Price`
becomes the list of optional price ids. -/
structure SubscriptionObj where
  id : String
  customer : Option String
  status : String
  currentPeriodEnd : Int
  cancelAtPeriodEnd : Bool
  itemPrices : List (Option String)
deriving DecidableEq

/-- Stripe checkout session as read by the webhook handler. -/
structure CheckoutSessionObj where
  metadata : List (String × String)
  paymentStatus : String
  customer : Option String
  mode : String
  subscription : Option String
deriving DecidableEq

/-- Stripe payment method as read by the webhook handler. -/
structure PaymentMethodObj where
  id : String
  customer : Option String
deriving DecidableEq

/-- Stripe customer as read back by `customer.Get`:
`InvoiceSettings.DefaultPaymentMethod` may be absent. -/
structure CustomerObj where
  invoiceSettingsDefaultPM : Option String
deriving DecidableEq

/-- Payload carried by a webhook event.  The per-arm `json.Unmarshal` of
`event.Data.Raw` succeeds exactly when the payload has the variant the arm
expects. -/
inductive EventPayload where
  | checkoutSession (s : CheckoutSessionObj)
  | subscription (s : SubscriptionObj)
  | paymentMethod (p : PaymentMethodObj)
  | other
deriving DecidableEq

/-- A verified webhook event: its `Type` string and its payload. -/
structure StripeEvent where
  type : String
  data : EventPayload
deriving DecidableEq

/-- Oracle for the external world: Stripe API responses and the outcome of
each database write, indexed by call site (0 = checkout-completed customer-id
write, 1 = checkout-completed subscription write, 2 = checkout-completed
payment-method backfill, 3 = subscription-updated write, 4 =
subscription-deleted write, 5 = payment-method-attached write, 6 = cancel
handler write, 7/8 = checkout handlers' customer-id write). -/
structure StripeBackend where
  customerNew : Option String
  sessionNew : Option (String × String)
  subGet : String → Option SubscriptionObj
  subUpdate : String → Option SubscriptionObj
  customerGet : String → Option CustomerObj
  writeOk : Nat → Bool

/-- Go map lookup `m["k"]` with the `, ok` form: first binding wins. -/
def lookupMeta (m : List (String × String)) (k : String) : Option String :=
  (m.find? (fun kv => decide (kv.1 = k))).map (fun kv => kv.2)

/-- Effect of `fmt.Sscanf(s, "%d", &userID)` on an unsigned variable: the
leading decimal digits, with the variable left at 0 when nothing parses. -/
def sscanfUint (s : String) : Nat :=
  (s.toList.takeWhile Char.isDigit).foldl (fun n c => n * 10 + (c.toNat - 48)) 0

/-- Plan-id derivation shared by the webhook arms (payment.go lines 459-464
and 504-508): the first line item's price id when present, else the fallback
(`sess.Metadata["plan_id"]` in the checkout arm, `""` in the update arm). -/
def derivePlanID (itemPrices : List (Option String)) (fallback : String) : String :=
  match itemPrices with
  | some p :: _ => p
  | _ => fallback

/-- Outcome of the webhook endpoint: 200 `{received: true}` or a 400 client
error. -/
inductive WebhookResult where
  | received
  | badRequest
deriving DecidableEq

/-- In-memory row after payment.go line 445: `user.UpdateStripeData` mutates
its receiver before the database write, so the later
`user.StripeDefaultPM == nil` check sees the assignment even when the write
fails. -/
def paidMemUser (customerID : String) (user : User) : User :=
  if user.stripeCustomerID = none then updateStripeData user customerID "" else user

/-- Database after the guarded customer-id write of payment.go lines 444-446. -/
def paidStep1 (be : StripeBackend) (customerID : String) (user : User)
    (db : List User) : List User :=
  if user.stripeCustomerID = none
  then dbWrite (be.writeOk 0) db user.id (fun u => updateStripeData u customerID "")
  else db

/-- Subscription branch of payment.go lines 449-471.  `none` is the `break`
taken when `sub.Get` fails, which skips the rest of the switch arm. -/
def paidStep2 (be : StripeBackend) (sess : CheckoutSessionObj) (user : User)
    (db1 : List User) : Option (List User) :=
  if sess.mode = "subscription" then
    match sess.subscription with
    | some subRef =>
      match be.subGet subRef with
      | none => none
      | some s =>
        some (dbWrite (be.writeOk 1) db1 user.id
          (fun u => updateSubscriptionData u s.id
            (derivePlanID s.itemPrices ((lookupMeta sess.metadata "plan_id").getD ""))
            s.status (some s.currentPeriodEnd)))
    | none => some db1
  else some db1

/-- Default-payment-method backfill of payment.go lines 473-480, guarded by
the in-memory `user.StripeDefaultPM == nil` check. -/
def paidStep3 (be : StripeBackend) (customerID : String) (user1 user : User)
    (db2 : List User) : List User :=
  if user1.stripeDefaultPM = none then
    match be.customerGet customerID with
    | some cus =>
      match cus.invoiceSettingsDefaultPM with
      | some pmid => dbWrite (be.writeOk 2) db2 user.id
          (fun u => updateStripeData u customerID pmid)
      | none => db2
    | none => db2
  else db2

/-- Paid branch of the `checkout.session.completed` arm (payment.go lines
440-481), entered when the session is paid and carries a customer.  `user` is
the row resolved from the metadata user id. -/
def checkoutPaidFlow (be : StripeBackend) (sess : CheckoutSessionObj)
    (customerID : String) (user : User) (db : List User) : List User :=
  let db1 := paidStep1 be customerID user db
  match paidStep2 be sess user db1 with
  | none => db1
  | some db2 => paidStep3 be customerID (paidMemUser customerID user) user db2

/-- Arm for `checkout.session.completed` events (payment.go lines 415-481): resolve the
user from the session metadata; unpaid, customer-less or unresolvable
sessions are no-ops acknowledged with 200. -/
def handleCheckoutCompleted (be : StripeBackend) (sess : CheckoutSessionObj)
    (db : List User) : WebhookResult × List User :=
  match lookupMeta sess.metadata "user_id" with
  | none => (.received, db)
  | some uidStr =>
    match findUserByID db (sscanfUint uidStr) with
    | none => (.received, db)
    | some user =>
      match sess.customer with
      | none => (.received, db)
      | some customerID =>
        if sess.paymentStatus = "paid"
        then (.received, checkoutPaidFlow be sess customerID user db)
        else (.received, db)

/-- Arm for `customer.subscription.updated` / `customer.subscription.created` events
(payment.go lines 483-514): resolve by Stripe customer id, then absolute
four-field replace from the event. -/
def handleSubUpdatedCreated (be : StripeBackend) (s : SubscriptionObj)
    (db : List User) : WebhookResult × List User :=
  match s.customer with
  | none => (.received, db)
  | some cid =>
    match findUserByCustomerID db cid with
    | none => (.received, db)
    | some user =>
      (.received, dbWrite (be.writeOk 3) db user.id
        (fun u => updateSubscriptionData u s.id (derivePlanID s.itemPrices "")
          s.status (some s.currentPeriodEnd)))

/-- Arm for `customer.subscription.deleted` events (payment.go lines 516-540): resolve by
Stripe customer id, then the explicit full clear. -/
def handleSubDeleted (be : StripeBackend) (s : SubscriptionObj)
    (db : List User) : WebhookResult × List User :=
  match s.customer with
  | none => (.received, db)
  | some cid =>
    match findUserByCustomerID db cid with
    | none => (.received, db)
    | some user =>
      (.received, dbWrite (be.writeOk 4) db user.id
        (fun u => updateSubscriptionData u "" "" "canceled" none))

/-- Arm for `payment_method.attached` events (payment.go lines 542-566): set the attached
method as default only when none is recorded. -/
def handlePMAttached (be : StripeBackend) (pm : PaymentMethodObj)
    (db : List User) : WebhookResult × List User :=
  match pm.customer with
  | none => (.received, db)
  | some cid =>
    match findUserByCustomerID db cid with
    | none => (.received, db)
    | some user =>
      if user.stripeDefaultPM = none
      then (.received, dbWrite (be.writeOk 5) db user.id
        (fun u => updateStripeData u cid pm.id))
      else (.received, db)

/-- Event-type dispatch of `StripeWebhookHandler` (payment.go lines 414-567):
a payload that does not unmarshal into the type the arm expects is a 400; an
unrecognized type falls through the switch to the 200 acknowledgment. -/
def handleStripeEvent (be : StripeBackend) (ev : StripeEvent)
    (db : List User) : WebhookResult × List User :=
  if ev.type = "checkout.session.completed" then
    match ev.data with
    | .checkoutSession s => handleCheckoutCompleted be s db
    | _ => (.badRequest, db)
  else if ev.type = "customer.subscription.updated"
       || ev.type = "customer.subscription.created" then
    match ev.data with
    | .subscription s => handleSubUpdatedCreated be s db
    | _ => (.badRequest, db)
  else if ev.type = "customer.subscription.deleted" then
    match ev.data with
    | .subscription s => handleSubDeleted be s db
    | _ => (.badRequest, db)
  else if ev.type = "payment_method.attached" then
    match ev.data with
    | .paymentMethod p => handlePMAttached be p db
    | _ => (.badRequest, db)
  else (.received, db)

/-- Model of `StripeWebhookHandler` (payment.go lines 393-570).  `constructEvent`
stands for `webhook.ConstructEvent` applied to the raw payload, the
`Stripe-Signature` header and the shared secret; `none` is a verification or
envelope-parse failure, answered 400 before any dispatch.  The third
component records whether the event-type dispatch was reached. -/
def stripeWebhookHandler
    (constructEvent : String → String → String → Option StripeEvent)
    (payload sigHeader secret : String) (be : StripeBackend)
    (db : List User) : WebhookResult × List User × Bool :=
  match constructEvent payload sigHeader secret with
  | none => (.badRequest, db, false)
  | some ev =>
    let r := handleStripeEvent be ev db
    (r.1, r.2, true)

/-- Outcome of `CancelSubscriptionHandler`. -/
inductive CancelResult where
  | notFound
  | noActiveSubscription
  | stripeError
  | updateError
  | canceled (subID status : String) (cancelAtPeriodEnd : Bool) (currentPeriodEnd : Int)
deriving DecidableEq

/-- Model of `CancelSubscriptionHandler` (payment.go lines 275-321).  The result is
`none` when the handler would dereference a nil `CurrentPlanID` pointer
(line 307); the boolean records whether the `sub.Update` provider call was
made. -/
def cancelSubscriptionHandler (be : StripeBackend) (db : List User)
    (uid : Nat) : Option (CancelResult × List User × Bool) :=
  match findUserByID db uid with
  | none => some (.notFound, db, false)
  | some user =>
    match user.subscriptionID with
    | none => some (.noActiveSubscription, db, false)
    | some sid =>
      match be.subUpdate sid with
      | none => some (.stripeError, db, true)
      | some s =>
        match user.currentPlanID with
        | none => none
        | some plan =>
          let db1 := dbWrite (be.writeOk 6) db user.id
            (fun u => updateSubscriptionData u s.id plan s.status (some s.currentPeriodEnd))
          if be.writeOk 6
          then some (.canceled s.id s.status s.cancelAtPeriodEnd s.currentPeriodEnd, db1, true)
          else some (.updateError, db1, true)

/-- Outcome of `GetSubscriptionHandler`. -/
inductive GetSubResult where
  | notFound
  | resp (hasSubscription : Bool) (subscriptionID planID status : String)
      (cancelAtPeriodEnd : Bool) (currentPeriodEnd : Option Int)
deriving DecidableEq

/-- Model of `GetSubscriptionHandler` (payment.go lines 335-382).  The result is `none`
when the handler would dereference a nil `CurrentPlanID` or
`SubscriptionStatus` pointer (lines 364-365 on the local-fallback path, line
377 on the live path). -/
def getSubscriptionHandler (be : StripeBackend) (db : List User)
    (uid : Nat) : Option GetSubResult :=
  match findUserByID db uid with
  | none => some .notFound
  | some user =>
    match user.subscriptionID with
    | none => some (.resp false "" "" "" false none)
    | some sid =>
      match be.subGet sid with
      | none =>
        match user.currentPlanID, user.subscriptionStatus with
        | some plan, some st =>
          some (.resp (isSubscribed user) "" plan st false user.subscriptionEndsAt)
        | _, _ => none
      | some s =>
        match user.currentPlanID with
        | none => none
        | some plan =>
          some (.resp (s.status = "active" || s.status = "trialing")
            s.id plan s.status s.cancelAtPeriodEnd (some s.currentPeriodEnd))

/-- Outcome of the checkout-session handlers. -/
inductive CheckoutResult where
  | notFound
  | customerError
  | updateError
  | sessionError
  | created (sessionID url : String)
deriving DecidableEq

/-- Final `session.New` step shared by both checkout handlers; the request
parameters fed to Stripe are absorbed into the `sessionNew` oracle. -/
def sessionStep (be : StripeBackend) (db : List User) : CheckoutResult × List User :=
  match be.sessionNew with
  | none => (.sessionError, db)
  | some su => (.created su.1 su.2, db)

/-- Model of `CreateCheckoutSessionHandler` (payment.go lines 94-167): reuse the stored
customer id, otherwise create one and persist it (write site 7) before the
session is created. -/
def createCheckoutSessionHandler (be : StripeBackend) (db : List User)
    (uid : Nat) : CheckoutResult × List User :=
  match findUserByID db uid with
  | none => (.notFound, db)
  | some user =>
    match user.stripeCustomerID with
    | some _ => sessionStep be db
    | none =>
      match be.customerNew with
      | none => (.customerError, db)
      | some newCid =>
        if be.writeOk 7
        then sessionStep be (dbUpdateById db user.id (fun u => updateStripeData u newCid ""))
        else (.updateError, db)

/-- Model of `CreateOneTimeCheckoutHandler` (payment.go lines 182-260): identical
customer-resolution structure, write site 8. -/
def createOneTimeCheckoutHandler (be : StripeBackend) (db : List User)
    (uid : Nat) : CheckoutResult × List User :=
  match findUserByID db uid with
  | none => (.notFound, db)
  | some user =>
    match user.stripeCustomerID with
    | some _ => sessionStep be db
    | none =>
      match be.customerNew with
      | none => (.customerError, db)
      | some newCid =>
        if be.writeOk 8
        then sessionStep be (dbUpdateById db user.id (fun u => updateStripeData u newCid ""))
        else (.updateError, db)

/-- Billing projection of a freshly registered account (`models.CreateUser`,
part_006 lines 169-214, sets none of the Stripe fields). -/
def blankUser (uid : Nat) : User :=
  { id := uid, stripeCustomerID := none, stripeDefaultPM := none,
    currentPlanID := none, subscriptionID := none,
    subscriptionStatus := none, subscriptionEndsAt := none }

/-- The operations of the system that can touch a Billing Record.  The
`webhook` operation carries the outcome of `webhook.ConstructEvent` (`none` =
verification failed); checkout request bodies only influence the provider
oracle, so they are not repeated here. -/
inductive SystemOp where
  | register (uid : Nat)
  | checkoutSub (uid : Nat)
  | checkoutOneTime (uid : Nat)
  | cancelSub (uid : Nat)
  | getSub (uid : Nat)
  | webhook (ev : Option StripeEvent)

/-- Database effect of one system operation.  Registration inserts a fresh
row (the primary key is unique, so a colliding id cannot be inserted); a
cancel aborted by a nil-pointer dereference has performed no write yet, so
its database effect is the unchanged database. -/
def runOp (be : StripeBackend) (op : SystemOp) (db : List User) : List User :=
  match op with
  | .register uid =>
    if db.any (fun u => decide (u.id = uid)) then db else db ++ [blankUser uid]
  | .checkoutSub uid => (createCheckoutSessionHandler be db uid).2
  | .checkoutOneTime uid => (createOneTimeCheckoutHandler be db uid).2
  | .cancelSub uid =>
    match cancelSubscriptionHandler be db uid with
    | some r => r.2.1
    | none => db
  | .getSub _ => db
  | .webhook none => db
  | .webhook (some ev) => (handleStripeEvent be ev db).2

/-- Databases reachable by the system: the empty database, grown and mutated
only through `runOp`. -/
inductive ReachableDB : List User → Prop where
  | nil : ReachableDB []
  | step (be : StripeBackend) (op : SystemOp) (db : List User) :
      ReachableDB db → ReachableDB (runOp be op db)

/-- Between two database states: every row whose Stripe customer id is set
keeps a row with its primary key, and every row that keeps its primary key
keeps that customer id. -/
def CustPreserved (db db' : List User) : Prop :=
  ∀ v ∈ db, ∀ c, v.stripeCustomerID = some c →
    (∃ v' ∈ db', v'.id = v.id ∧ v'.stripeCustomerID = some c) ∧
    (∀ v' ∈ db', v'.id = v.id → v'.stripeCustomerID = some c)

/-- Run a whole trace of system operations, each against its own provider
behaviour. -/
def runOps (db : List User) (ops : List (StripeBackend × SystemOp)) : List User :=
  ops.foldl (fun d p => runOp p.1 p.2 d) db

/-- Decides whether the per-arm `json.Unmarshal` of the event's payload
succeeds, mirroring the dispatch of `handleStripeEvent`. -/
def payloadParses (ev : StripeEvent) : Bool :=
  if ev.type = "checkout.session.completed" then
    match ev.data with
    | .checkoutSession _ => true
    | _ => false
  else if ev.type = "customer.subscription.updated"
       || ev.type = "customer.subscription.created" then
    match ev.data with
    | .subscription _ => true
    | _ => false
  else if ev.type = "customer.subscription.deleted" then
    match ev.data with
    | .subscription _ => true
    | _ => false
  else if ev.type = "payment_method.attached" then
    match ev.data with
    | .paymentMethod _ => true
    | _ => false
  else true

/-- Per-row invariant: the four subscription fields are assigned together, the
two Stripe identity fields are assigned together. -/
def UserInv (u : User) : Prop :=
  u.subscriptionID.isSome = u.subscriptionStatus.isSome ∧
  u.subscriptionID.isSome = u.currentPlanID.isSome ∧
  u.stripeCustomerID.isSome = u.stripeDefaultPM.isSome

/-- Database invariant: primary keys are unique and every row satisfies
`UserInv`. -/
def DBInv (db : List User) : Prop :=
  (db.map User.id).Nodup ∧ ∀ u ∈ db, UserInv u

/-- Concrete provider behaviour used in witnesses: creation succeeds, every
fetch fails, every database write succeeds. -/
def exBE : StripeBackend :=
  { customerNew := some "cus_1", sessionNew := some ("sess_1", "https://pay.example"),
    subGet := fun _ => none, subUpdate := fun _ => none,
    customerGet := fun _ => none, writeOk := fun _ => true }

/-- Concrete subscription payload of a deletion event for customer `cus_1`. -/
def exDeletedSub : SubscriptionObj :=
  { id := "sub_1", customer := some "cus_1", status := "canceled",
    currentPeriodEnd := 0, cancelAtPeriodEnd := true, itemPrices := [] }

/-- Concrete `customer.subscription.deleted` event for customer `cus_1`. -/
def exDeletedEv : StripeEvent :=
  ⟨"customer.subscription.deleted", .subscription exDeletedSub⟩

/-- Database reached by registering account 1 and running a subscription
checkout for it (which creates and persists customer `cus_1`). -/
def exDb1 : List User :=
  runOp exBE (.checkoutSub 1) (runOp exBE (.register 1) [])

/-- Database reached from `exDb1` by a `customer.subscription.deleted`
webhook. -/
def exDb2 : List User :=
  runOp exBE (.webhook (some exDeletedEv)) exDb1

/-- The single row of `exDb1`. -/
def exCheckoutUser : User :=
  { id := 1, stripeCustomerID := some "cus_1", stripeDefaultPM := some "",
    currentPlanID := none, subscriptionID := none,
    subscriptionStatus := none, subscriptionEndsAt := none }

/-- The single row of `exDb2`: the cleared state the deletion handler leaves. -/
def exDeletedUser : User :=
  { id := 1, stripeCustomerID := some "cus_1", stripeDefaultPM := some "",
    currentPlanID := some "", subscriptionID := some "",
    subscriptionStatus := some "canceled", subscriptionEndsAt := none }

/-- Concrete subscription-updated payloads for the same subscription of
customer `cus_1`. -/
def exUpdSub1 : SubscriptionObj :=
  { id := "sub_9", customer := some "cus_1", status := "trialing",
    currentPeriodEnd := 3, cancelAtPeriodEnd := false, itemPrices := [some "price_a"] }

/-- Second updated payload for the same subscription; the one applied last. -/
def exUpdSub2 : SubscriptionObj :=
  { id := "sub_9", customer := some "cus_1", status := "active",
    currentPeriodEnd := 7, cancelAtPeriodEnd := false, itemPrices := [some "price_b"] }

/-- Row of `exDb1` after applying `exUpdSub2`. -/
def exUpdatedUser : User :=
  { id := 1, stripeCustomerID := some "cus_1", stripeDefaultPM := some "",
    currentPlanID := some "price_b", subscriptionID := some "sub_9",
    subscriptionStatus := some "active", subscriptionEndsAt := some 7 }

/-- A user that already has a default payment method recorded. -/
def exPMUser : User :=
  { id := 7, stripeCustomerID := some "cus_7", stripeDefaultPM := some "pm_1",
    currentPlanID := none, subscriptionID := none,
    subscriptionStatus := none, subscriptionEndsAt := none }

/-- A `webhook.ConstructEvent` outcome that always reports a bad signature. -/
def exVerifyFail : String → String → String → Option StripeEvent :=
  fun _ _ _ => none

/-- A completed-checkout session whose payment status is not paid. -/
def exUnpaidSess : CheckoutSessionObj :=
  { metadata := [("user_id", "1")], paymentStatus := "unpaid",
    customer := some "cus_1", mode := "subscription", subscription := some "sub_1" }

theorem updateStripeData_id (u : User) (c p : String) :
    (updateStripeData u c p).id = u.id := rfl

theorem updateSubscriptionData_id (u : User) (a b c : String) (e : Option Int) :
    (updateSubscriptionData u a b c e).id = u.id := rfl

theorem updateSubscriptionData_cust (u : User) (a b c : String) (e : Option Int) :
    (updateSubscriptionData u a b c e).stripeCustomerID = u.stripeCustomerID := rfl

theorem mem_dbUpdateById {db : List User} {i : Nat} {f : User → User} {v : User} :
    v ∈ dbUpdateById db i f ↔
      ∃ u, u ∈ db ∧ ((u.id = i ∧ v = f u) ∨ (u.id ≠ i ∧ v = u)) := by
  simp only [dbUpdateById, List.mem_map]
  constructor
  · rintro ⟨u, hu, hv⟩
    by_cases h : u.id = i
    · exact ⟨u, hu, Or.inl ⟨h, by rw [← hv, if_pos h]⟩⟩
    · exact ⟨u, hu, Or.inr ⟨h, by rw [← hv, if_neg h]⟩⟩
  · rintro ⟨u, hu, h | h⟩
    · exact ⟨u, hu, by rw [if_pos h.1, ← h.2]⟩
    · exact ⟨u, hu, by rw [if_neg h.1, ← h.2]⟩

theorem map_id_dbUpdateById (db : List User) (i : Nat) (f : User → User)
    (hf : ∀ u, (f u).id = u.id) :
    (dbUpdateById db i f).map User.id = db.map User.id := by
  induction db with
  | nil => rfl
  | cons a t ih =>
    simp only [dbUpdateById, List.map_cons] at ih ⊢
    rw [ih]
    by_cases h : a.id = i
    · rw [if_pos h, hf a]
    · rw [if_neg h]

theorem userInv_updateStripeData {u : User} (h : UserInv u) (c p : String) :
    UserInv (updateStripeData u c p) := ⟨h.1, h.2.1, rfl⟩

theorem userInv_updateSubscriptionData {u : User} (h : UserInv u)
    (a b c : String) (e : Option Int) :
    UserInv (updateSubscriptionData u a b c e) := ⟨rfl, rfl, h.2.2⟩

theorem userInv_blankUser (uid : Nat) : UserInv (blankUser uid) := ⟨rfl, rfl, rfl⟩

theorem dbInv_dbUpdateById {db : List User} {i : Nat} {f : User → User}
    (hdb : DBInv db) (hfi : ∀ u, (f u).id = u.id)
    (hfinv : ∀ u, UserInv u → UserInv (f u)) :
    DBInv (dbUpdateById db i f) := by
  refine ⟨?_, ?_⟩
  · rw [map_id_dbUpdateById db i f hfi]; exact hdb.1
  · intro v hv
    rcases mem_dbUpdateById.mp hv with ⟨u, hu, h | h⟩
    · exact h.2 ▸ hfinv u (hdb.2 u hu)
    · exact h.2 ▸ hdb.2 u hu

theorem dbInv_dbWrite {ok : Bool} {db : List User} {i : Nat} {f : User → User}
    (hdb : DBInv db) (hfi : ∀ u, (f u).id = u.id)
    (hfinv : ∀ u, UserInv u → UserInv (f u)) :
    DBInv (dbWrite ok db i f) := by
  unfold dbWrite
  split
  · exact dbInv_dbUpdateById hdb hfi hfinv
  · exact hdb

theorem findUserByID_mem {db : List User} {uid : Nat} {u : User}
    (h : findUserByID db uid = some u) : u ∈ db :=
  List.mem_of_find?_eq_some h

theorem findUserByID_id {db : List User} {uid : Nat} {u : User}
    (h : findUserByID db uid = some u) : u.id = uid := by
  have := List.find?_some h
  simpa using this

theorem findUserByCustomerID_mem {db : List User} {cid : String} {u : User}
    (h : findUserByCustomerID db cid = some u) : u ∈ db :=
  List.mem_of_find?_eq_some h

theorem findUserByCustomerID_cust {db : List User} {cid : String} {u : User}
    (h : findUserByCustomerID db cid = some u) : u.stripeCustomerID = some cid := by
  have := List.find?_some h
  simpa using this

theorem dbInv_id_inj {db : List User} (hdb : DBInv db) {u v : User}
    (hu : u ∈ db) (hv : v ∈ db) (h : u.id = v.id) : u = v :=
  List.inj_on_of_nodup_map hdb.1 hu hv h

theorem custPreserved_refl {db : List User} (hdb : DBInv db) :
    CustPreserved db db := by
  intro v hv c hc
  refine ⟨⟨v, hv, rfl, hc⟩, ?_⟩
  intro v' hv' hid
  rw [dbInv_id_inj hdb hv' hv hid, hc]

theorem custPreserved_trans {db1 db2 db3 : List User}
    (h12 : CustPreserved db1 db2) (h23 : CustPreserved db2 db3) :
    CustPreserved db1 db3 := by
  intro v hv c hc
  obtain ⟨⟨v', hv', hid, hc'⟩, _⟩ := h12 v hv c hc
  obtain ⟨⟨v'', hv'', hid', hc''⟩, hall⟩ := h23 v' hv' c hc'
  exact ⟨⟨v'', hv'', hid'.trans hid, hc''⟩,
    fun w hw hwid => hall w hw (hwid.trans hid.symm)⟩

theorem custPreserved_dbUpdateById_frame {db : List User} {i : Nat} {f : User → User}
    (hdb : DBInv db) (hf : ∀ u, (f u).id = u.id)
    (hc : ∀ u, (f u).stripeCustomerID = u.stripeCustomerID) :
    CustPreserved db (dbUpdateById db i f) := by
  intro v hv c hcid
  constructor
  · by_cases h : v.id = i
    · exact ⟨f v, mem_dbUpdateById.mpr ⟨v, hv, Or.inl ⟨h, rfl⟩⟩, hf v, (hc v).trans hcid⟩
    · exact ⟨v, mem_dbUpdateById.mpr ⟨v, hv, Or.inr ⟨h, rfl⟩⟩, rfl, hcid⟩
  · intro v' hv' hid
    rcases mem_dbUpdateById.mp hv' with ⟨u, hu, h | h⟩
    · have huv : u = v := dbInv_id_inj hdb hu hv (by rw [← hf u, ← h.2, hid])
      rw [h.2, hc u, huv, hcid]
    · have huv : u = v := dbInv_id_inj hdb hu hv (by rw [← h.2, hid])
      rw [h.2, huv, hcid]

theorem custPreserved_dbWrite_frame {ok : Bool} {db : List User} {i : Nat}
    {f : User → User} (hdb : DBInv db) (hf : ∀ u, (f u).id = u.id)
    (hc : ∀ u, (f u).stripeCustomerID = u.stripeCustomerID) :
    CustPreserved db (dbWrite ok db i f) := by
  unfold dbWrite
  split
  · exact custPreserved_dbUpdateById_frame hdb hf hc
  · exact custPreserved_refl hdb

theorem custPreserved_dbUpdateById_stripe_none {db : List User} {i : Nat}
    {cid pm : String} (hdb : DBInv db)
    (hres : ∀ u ∈ db, u.id = i → u.stripeCustomerID = none) :
    CustPreserved db (dbUpdateById db i (fun u => updateStripeData u cid pm)) := by
  intro v hv c hcid
  have hvne : v.id ≠ i := by
    intro h
    rw [hres v hv h] at hcid
    exact Option.noConfusion hcid
  constructor
  · exact ⟨v, mem_dbUpdateById.mpr ⟨v, hv, Or.inr ⟨hvne, rfl⟩⟩, rfl, hcid⟩
  · intro v' hv' hid
    rcases mem_dbUpdateById.mp hv' with ⟨u, hu, h | h⟩
    · exfalso
      apply hvne
      rw [← hid, h.2, updateStripeData_id, h.1]
    · have huv : u = v := dbInv_id_inj hdb hu hv (by rw [← h.2, hid])
      rw [h.2, huv, hcid]

theorem custPreserved_dbUpdateById_stripe_same {db : List User} {i : Nat}
    {cid pm : String} (hdb : DBInv db)
    (hres : ∀ u ∈ db, u.id = i → u.stripeCustomerID = some cid) :
    CustPreserved db (dbUpdateById db i (fun u => updateStripeData u cid pm)) := by
  intro v hv c hcid
  constructor
  · by_cases h : v.id = i
    · have hcc : some cid = some c := by rw [← hres v hv h, hcid]
      exact ⟨updateStripeData v cid pm,
        mem_dbUpdateById.mpr ⟨v, hv, Or.inl ⟨h, rfl⟩⟩, rfl, hcc⟩
    · exact ⟨v, mem_dbUpdateById.mpr ⟨v, hv, Or.inr ⟨h, rfl⟩⟩, rfl, hcid⟩
  · intro v' hv' hid
    rcases mem_dbUpdateById.mp hv' with ⟨u, hu, h | h⟩
    · have huv : u = v := dbInv_id_inj hdb hu hv (by rw [← updateStripeData_id u cid pm, ← h.2, hid])
      have hvi : v.id = i := by rw [← huv, h.1]
      have hcc : some cid = some c := by rw [← hres v hv hvi, hcid]
      rw [h.2]
      exact hcc
    · have huv : u = v := dbInv_id_inj hdb hu hv (by rw [← h.2, hid])
      rw [h.2, huv, hcid]

theorem dbInv_stripeWrite {ok : Bool} {db : List User} {i : Nat} {c p : String}
    (hdb : DBInv db) :
    DBInv (dbWrite ok db i (fun u => updateStripeData u c p)) :=
  dbInv_dbWrite hdb (fun _ => rfl) (fun _ hu => userInv_updateStripeData hu _ _)

theorem dbInv_subWrite {ok : Bool} {db : List User} {i : Nat} {a b c : String}
    {e : Option Int} (hdb : DBInv db) :
    DBInv (dbWrite ok db i (fun u => updateSubscriptionData u a b c e)) :=
  dbInv_dbWrite hdb (fun _ => rfl) (fun _ hu => userInv_updateSubscriptionData hu _ _ _ _)

theorem dbInv_paidStep1 {be : StripeBackend} {customerID : String} {user : User}
    {db : List User} (hdb : DBInv db) : DBInv (paidStep1 be customerID user db) := by
  unfold paidStep1
  split
  · exact dbInv_stripeWrite hdb
  · exact hdb

theorem dbInv_paidStep2 {be : StripeBackend} {sess : CheckoutSessionObj}
    {user : User} {db1 db2 : List User} (h : paidStep2 be sess user db1 = some db2)
    (hdb : DBInv db1) : DBInv db2 := by
  unfold paidStep2 at h
  repeat' split at h
  all_goals
    first
    | (cases h; exact hdb)
    | (cases h; exact dbInv_subWrite hdb)
    | cases h

theorem dbInv_paidStep3 {be : StripeBackend} {customerID : String}
    {user1 user : User} {db2 : List User} (hdb : DBInv db2) :
    DBInv (paidStep3 be customerID user1 user db2) := by
  unfold paidStep3
  repeat' split
  all_goals first | exact hdb | exact dbInv_stripeWrite hdb

theorem dbInv_checkoutPaidFlow {be : StripeBackend} {sess : CheckoutSessionObj}
    {customerID : String} {user : User} {db : List User} (hdb : DBInv db) :
    DBInv (checkoutPaidFlow be sess customerID user db) := by
  unfold checkoutPaidFlow
  dsimp only
  cases h : paidStep2 be sess user (paidStep1 be customerID user db) with
  | none => exact dbInv_paidStep1 hdb
  | some db2 => exact dbInv_paidStep3 (dbInv_paidStep2 h (dbInv_paidStep1 hdb))

theorem dbInv_handleCheckoutCompleted {be : StripeBackend}
    {sess : CheckoutSessionObj} {db : List User} (hdb : DBInv db) :
    DBInv (handleCheckoutCompleted be sess db).2 := by
  unfold handleCheckoutCompleted
  repeat' split
  all_goals first | exact hdb | exact dbInv_checkoutPaidFlow hdb

theorem dbInv_handleSubUpdatedCreated {be : StripeBackend} {s : SubscriptionObj}
    {db : List User} (hdb : DBInv db) :
    DBInv (handleSubUpdatedCreated be s db).2 := by
  unfold handleSubUpdatedCreated
  repeat' split
  all_goals first | exact hdb | exact dbInv_subWrite hdb

theorem dbInv_handleSubDeleted {be : StripeBackend} {s : SubscriptionObj}
    {db : List User} (hdb : DBInv db) :
    DBInv (handleSubDeleted be s db).2 := by
  unfold handleSubDeleted
  repeat' split
  all_goals first | exact hdb | exact dbInv_subWrite hdb

theorem dbInv_handlePMAttached {be : StripeBackend} {pm : PaymentMethodObj}
    {db : List User} (hdb : DBInv db) :
    DBInv (handlePMAttached be pm db).2 := by
  unfold handlePMAttached
  repeat' split
  all_goals first | exact hdb | exact dbInv_stripeWrite hdb

theorem dbInv_handleStripeEvent {be : StripeBackend} {ev : StripeEvent}
    {db : List User} (hdb : DBInv db) :
    DBInv (handleStripeEvent be ev db).2 := by
  unfold handleStripeEvent
  repeat' split
  all_goals
    first
    | exact hdb
    | exact dbInv_handleCheckoutCompleted hdb
    | exact dbInv_handleSubUpdatedCreated hdb
    | exact dbInv_handleSubDeleted hdb
    | exact dbInv_handlePMAttached hdb

theorem dbInv_register {db : List User} {uid : Nat} (hdb : DBInv db) :
    DBInv (if db.any (fun u => decide (u.id = uid)) then db else db ++ [blankUser uid]) := by
  split
  · exact hdb
  · rename_i h
    have hnot : uid ∉ db.map User.id := by
      intro hmem
      apply h
      rcases List.mem_map.mp hmem with ⟨u, hu, hid⟩
      exact List.any_eq_true.mpr ⟨u, hu, by simp [hid]⟩
    refine ⟨?_, ?_⟩
    · rw [List.map_append, List.nodup_append]
      refine ⟨hdb.1, List.nodup_singleton _, ?_⟩
      intro a ha hb
      simp only [blankUser, List.map_cons, List.map_nil, List.mem_singleton] at hb
      rw [hb] at ha
      exact hnot ha
    · intro u hu
      rcases List.mem_append.mp hu with h1 | h1
      · exact hdb.2 u h1
      · rw [List.mem_singleton.mp h1]
        exact userInv_blankUser uid

theorem dbInv_sessionStep {be : StripeBackend} {d : List User} (hdb : DBInv d) :
    DBInv (sessionStep be d).2 := by
  unfold sessionStep
  repeat' split
  all_goals exact hdb

theorem dbInv_createCheckout {be : StripeBackend} {db : List User} {uid : Nat}
    (hdb : DBInv db) : DBInv (createCheckoutSessionHandler be db uid).2 := by
  unfold createCheckoutSessionHandler
  repeat' split
  all_goals
    first
    | exact hdb
    | exact dbInv_sessionStep hdb
    | exact dbInv_sessionStep
        (dbInv_dbUpdateById hdb (fun _ => rfl) (fun _ hu => userInv_updateStripeData hu _ _))

theorem dbInv_createOneTime {be : StripeBackend} {db : List User} {uid : Nat}
    (hdb : DBInv db) : DBInv (createOneTimeCheckoutHandler be db uid).2 := by
  unfold createOneTimeCheckoutHandler
  repeat' split
  all_goals
    first
    | exact hdb
    | exact dbInv_sessionStep hdb
    | exact dbInv_sessionStep
        (dbInv_dbUpdateById hdb (fun _ => rfl) (fun _ hu => userInv_updateStripeData hu _ _))

theorem dbInv_cancelResult {be : StripeBackend} {db : List User} {uid : Nat}
    {r : CancelResult × List User × Bool}
    (h : cancelSubscriptionHandler be db uid = some r) (hdb : DBInv db) :
    DBInv r.2.1 := by
  unfold cancelSubscriptionHandler at h
  dsimp only at h
  repeat' split at h
  all_goals
    first
    | (cases h; exact hdb)
    | (cases h; exact dbInv_subWrite hdb)
    | cases h

theorem dbInv_runOp (be : StripeBackend) (op : SystemOp) (db : List User)
    (hdb : DBInv db) : DBInv (runOp be op db) := by
  cases op with
  | register uid => exact dbInv_register hdb
  | checkoutSub uid => exact dbInv_createCheckout hdb
  | checkoutOneTime uid => exact dbInv_createOneTime hdb
  | cancelSub uid =>
    show DBInv (match cancelSubscriptionHandler be db uid with
      | some r => r.2.1 | none => db)
    cases h : cancelSubscriptionHandler be db uid with
    | none => exact hdb
    | some r => exact dbInv_cancelResult h hdb
  | getSub uid => exact hdb
  | webhook ev? =>
    cases ev? with
    | none => exact hdb
    | some ev => exact dbInv_handleStripeEvent hdb

theorem dbInv_reachable {db : List User} (h : ReachableDB db) : DBInv db := by
  induction h with
  | nil => exact ⟨List.nodup_nil, by intro u hu; cases hu⟩
  | step be op db h ih => exact dbInv_runOp be op db ih

theorem custPreserved_stripe_none_write {ok : Bool} {db : List User} {i : Nat}
    {cid pm : String} (hdb : DBInv db)
    (hres : ∀ u ∈ db, u.id = i → u.stripeCustomerID = none) :
    CustPreserved db (dbWrite ok db i (fun u => updateStripeData u cid pm)) := by
  unfold dbWrite
  split
  · exact custPreserved_dbUpdateById_stripe_none hdb hres
  · exact custPreserved_refl hdb

theorem custPreserved_stripe_same_write {ok : Bool} {db : List User} {i : Nat}
    {cid pm : String} (hdb : DBInv db)
    (hres : ∀ u ∈ db, u.id = i → u.stripeCustomerID = some cid) :
    CustPreserved db (dbWrite ok db i (fun u => updateStripeData u cid pm)) := by
  unfold dbWrite
  split
  · exact custPreserved_dbUpdateById_stripe_same hdb hres
  · exact custPreserved_refl hdb

theorem custPreserved_paidStep1 {be : StripeBackend} {customerID : String}
    {user : User} {db : List User} (hdb : DBInv db) (hu : user ∈ db) :
    CustPreserved db (paidStep1 be customerID user db) := by
  unfold paidStep1
  split
  · rename_i hnone
    apply custPreserved_stripe_none_write hdb
    intro v hv hvid
    rw [dbInv_id_inj hdb hv hu hvid, hnone]
  · exact custPreserved_refl hdb

theorem custPreserved_paidStep2 {be : StripeBackend} {sess : CheckoutSessionObj}
    {user : User} {db1 db2 : List User} (h : paidStep2 be sess user db1 = some db2)
    (hdb1 : DBInv db1) : CustPreserved db1 db2 := by
  unfold paidStep2 at h
  repeat' split at h
  all_goals
    first
    | (cases h; exact custPreserved_refl hdb1)
    | (cases h; exact custPreserved_dbWrite_frame hdb1 (fun _ => rfl) (fun _ => rfl))
    | cases h

theorem paidStep3_of_PM_some {be : StripeBackend} {customerID : String}
    {user1 user : User} {db2 : List User} (h : ¬ user1.stripeDefaultPM = none) :
    paidStep3 be customerID user1 user db2 = db2 := by
  unfold paidStep3
  rw [if_neg h]

theorem paidMemUser_PM_some {customerID : String} {user : User}
    (hinv : UserInv user) : ¬ (paidMemUser customerID user).stripeDefaultPM = none := by
  unfold paidMemUser
  split
  · intro hc
    exact Option.noConfusion hc
  · rename_i hcid
    intro hc
    have h1 : user.stripeCustomerID.isSome = true := Option.isSome_iff_ne_none.mpr hcid
    have h2 : user.stripeDefaultPM.isSome = true := hinv.2.2 ▸ h1
    rw [hc] at h2
    exact Bool.noConfusion h2

theorem custPreserved_checkoutPaidFlow {be : StripeBackend}
    {sess : CheckoutSessionObj} {customerID : String} {user : User}
    {db : List User} (hdb : DBInv db) (hu : user ∈ db) :
    CustPreserved db (checkoutPaidFlow be sess customerID user db) := by
  have hinv : UserInv user := hdb.2 user hu
  have hdb1 : DBInv (paidStep1 be customerID user db) := dbInv_paidStep1 hdb
  have h1 : CustPreserved db (paidStep1 be customerID user db) :=
    custPreserved_paidStep1 hdb hu
  unfold checkoutPaidFlow
  dsimp only
  cases h2 : paidStep2 be sess user (paidStep1 be customerID user db) with
  | none => exact h1
  | some db2 =>
    show CustPreserved db (paidStep3 be customerID (paidMemUser customerID user) user db2)
    rw [paidStep3_of_PM_some (paidMemUser_PM_some hinv)]
    exact custPreserved_trans h1 (custPreserved_paidStep2 h2 hdb1)

theorem custPreserved_handleCheckoutCompleted {be : StripeBackend}
    {sess : CheckoutSessionObj} {db : List User} (hdb : DBInv db) :
    CustPreserved db (handleCheckoutCompleted be sess db).2 := by
  unfold handleCheckoutCompleted
  repeat' split
  all_goals
    first
    | exact custPreserved_refl hdb
    | exact custPreserved_checkoutPaidFlow hdb (findUserByID_mem (by assumption))

theorem custPreserved_handleSubUpdatedCreated {be : StripeBackend}
    {s : SubscriptionObj} {db : List User} (hdb : DBInv db) :
    CustPreserved db (handleSubUpdatedCreated be s db).2 := by
  unfold handleSubUpdatedCreated
  repeat' split
  all_goals
    first
    | exact custPreserved_refl hdb
    | exact custPreserved_dbWrite_frame hdb (fun _ => rfl) (fun _ => rfl)

theorem custPreserved_handleSubDeleted {be : StripeBackend}
    {s : SubscriptionObj} {db : List User} (hdb : DBInv db) :
    CustPreserved db (handleSubDeleted be s db).2 := by
  unfold handleSubDeleted
  repeat' split
  all_goals
    first
    | exact custPreserved_refl hdb
    | exact custPreserved_dbWrite_frame hdb (fun _ => rfl) (fun _ => rfl)

theorem custPreserved_handlePMAttached {be : StripeBackend}
    {pm : PaymentMethodObj} {db : List User} (hdb : DBInv db) :
    CustPreserved db (handlePMAttached be pm db).2 := by
  unfold handlePMAttached
  repeat' split
  all_goals
    first
    | exact custPreserved_refl hdb
    | · apply custPreserved_stripe_same_write hdb
        intro v hv hvid
        rw [dbInv_id_inj hdb hv (findUserByCustomerID_mem (by assumption)) hvid]
        exact findUserByCustomerID_cust (by assumption)

theorem custPreserved_handleStripeEvent {be : StripeBackend} {ev : StripeEvent}
    {db : List User} (hdb : DBInv db) :
    CustPreserved db (handleStripeEvent be ev db).2 := by
  unfold handleStripeEvent
  repeat' split
  all_goals
    first
    | exact custPreserved_refl hdb
    | exact custPreserved_handleCheckoutCompleted hdb
    | exact custPreserved_handleSubUpdatedCreated hdb
    | exact custPreserved_handleSubDeleted hdb
    | exact custPreserved_handlePMAttached hdb

theorem sessionStep_snd (be : StripeBackend) (d : List User) :
    (sessionStep be d).2 = d := by
  unfold sessionStep
  repeat' split
  all_goals rfl

theorem custPreserved_createCheckout {be : StripeBackend} {db : List User}
    {uid : Nat} (hdb : DBInv db) :
    CustPreserved db (createCheckoutSessionHandler be db uid).2 := by
  unfold createCheckoutSessionHandler
  repeat' split
  all_goals try rw [sessionStep_snd]
  all_goals
    first
    | exact custPreserved_refl hdb
    | · apply custPreserved_dbUpdateById_stripe_none hdb
        intro v hv hvid
        rw [dbInv_id_inj hdb hv (findUserByID_mem (by assumption)) hvid]
        assumption

theorem custPreserved_createOneTime {be : StripeBackend} {db : List User}
    {uid : Nat} (hdb : DBInv db) :
    CustPreserved db (createOneTimeCheckoutHandler be db uid).2 := by
  unfold createOneTimeCheckoutHandler
  repeat' split
  all_goals try rw [sessionStep_snd]
  all_goals
    first
    | exact custPreserved_refl hdb
    | · apply custPreserved_dbUpdateById_stripe_none hdb
        intro v hv hvid
        rw [dbInv_id_inj hdb hv (findUserByID_mem (by assumption)) hvid]
        assumption

theorem custPreserved_cancelResult {be : StripeBackend} {db : List User}
    {uid : Nat} {r : CancelResult × List User × Bool}
    (h : cancelSubscriptionHandler be db uid = some r) (hdb : DBInv db) :
    CustPreserved db r.2.1 := by
  unfold cancelSubscriptionHandler at h
  dsimp only at h
  repeat' split at h
  all_goals
    first
    | (cases h; exact custPreserved_refl hdb)
    | (cases h; exact custPreserved_dbWrite_frame hdb (fun _ => rfl) (fun _ => rfl))
    | cases h

theorem custPreserved_register {db : List User} {uid : Nat} (hdb : DBInv db) :
    CustPreserved db
      (if db.any (fun u => decide (u.id = uid)) then db else db ++ [blankUser uid]) := by
  split
  · exact custPreserved_refl hdb
  · rename_i h
    intro v hv c hc
    refine ⟨⟨v, List.mem_append.mpr (Or.inl hv), rfl, hc⟩, ?_⟩
    intro v' hv' hid
    rcases List.mem_append.mp hv' with h1 | h1
    · rw [dbInv_id_inj hdb h1 hv hid, hc]
    · exfalso
      rw [List.mem_singleton.mp h1] at hid
      apply h
      refine List.any_eq_true.mpr ⟨v, hv, ?_⟩
      simp only [blankUser] at hid
      simp [← hid]

theorem custPreserved_runOp (be : StripeBackend) (op : SystemOp)
    (db : List User) (hdb : DBInv db) : CustPreserved db (runOp be op db) := by
  cases op with
  | register uid => exact custPreserved_register hdb
  | checkoutSub uid => exact custPreserved_createCheckout hdb
  | checkoutOneTime uid => exact custPreserved_createOneTime hdb
  | cancelSub uid =>
    show CustPreserved db (match cancelSubscriptionHandler be db uid with
      | some r => r.2.1 | none => db)
    cases h : cancelSubscriptionHandler be db uid with
    | none => exact custPreserved_refl hdb
    | some r => exact custPreserved_cancelResult h hdb
  | getSub uid => exact custPreserved_refl hdb
  | webhook ev? =>
    cases ev? with
    | none => exact custPreserved_refl hdb
    | some ev => exact custPreserved_handleStripeEvent hdb

theorem dbInv_runOps (db : List User) (ops : List (StripeBackend × SystemOp))
    (hdb : DBInv db) : DBInv (runOps db ops) := by
  induction ops generalizing db with
  | nil => exact hdb
  | cons p t ih => exact ih (runOp p.1 p.2 db) (dbInv_runOp p.1 p.2 db hdb)

theorem custPreserved_runOps (db : List User)
    (ops : List (StripeBackend × SystemOp)) (hdb : DBInv db) :
    CustPreserved db (runOps db ops) := by
  induction ops generalizing db with
  | nil => exact custPreserved_refl hdb
  | cons p t ih =>
    exact custPreserved_trans (custPreserved_runOp p.1 p.2 db hdb)
      (ih (runOp p.1 p.2 db) (dbInv_runOp p.1 p.2 db hdb))

theorem updateSubscriptionData_twice (u : User) (a b c : String) (e : Option Int)
    (a' b' c' : String) (e' : Option Int) :
    updateSubscriptionData (updateSubscriptionData u a b c e) a' b' c' e'
      = updateSubscriptionData u a' b' c' e' := rfl

theorem findCustomer_dbUpdateById {db : List User} {i : Nat} {f : User → User}
    {c : String} (hf : ∀ u, (f u).stripeCustomerID = u.stripeCustomerID) :
    findUserByCustomerID (dbUpdateById db i f) c
      = (findUserByCustomerID db c).map (fun u => if u.id = i then f u else u) := by
  have hg : ∀ u : User, (if u.id = i then f u else u).stripeCustomerID
      = u.stripeCustomerID := by
    intro u
    split
    · exact hf u
    · rfl
  induction db with
  | nil => rfl
  | cons a t ih =>
    simp only [dbUpdateById, findUserByCustomerID, List.map_cons] at ih ⊢
    by_cases h : a.stripeCustomerID = some c
    · rw [List.find?_cons_of_pos _ (by simp [hg a, h]),
        List.find?_cons_of_pos _ (by simp [h])]
      simp
    · rw [List.find?_cons_of_neg _ (by simp [hg a, h]),
        List.find?_cons_of_neg _ (by simp [h])]
      exact ih

theorem dbUpdateById_twice {db : List User} {i : Nat} {f g : User → User}
    (hf : ∀ u, (f u).id = u.id) :
    dbUpdateById (dbUpdateById db i f) i g = dbUpdateById db i (fun u => g (f u)) := by
  unfold dbUpdateById
  rw [List.map_map]
  apply List.map_congr_left
  intro u _
  by_cases h : u.id = i
  · simp [Function.comp, h, hf u]
  · simp [Function.comp, h]

theorem applySubUpdated_none {be : StripeBackend} {s : SubscriptionObj}
    {db : List User} {c : String} (hs : s.customer = some c)
    (hfind : findUserByCustomerID db c = none) :
    (handleSubUpdatedCreated be s db).2 = db := by
  simp only [handleSubUpdatedCreated, hs, hfind]

theorem applySubUpdated_some {be : StripeBackend} {s : SubscriptionObj}
    {db : List User} {c : String} {user : User} (hs : s.customer = some c)
    (hfind : findUserByCustomerID db c = some user) :
    (handleSubUpdatedCreated be s db).2
      = dbWrite (be.writeOk 3) db user.id
        (fun u => updateSubscriptionData u s.id (derivePlanID s.itemPrices "")
          s.status (some s.currentPeriodEnd)) := by
  simp only [handleSubUpdatedCreated, hs, hfind]

theorem applyUpdated_twice {be : StripeBackend} (hw : be.writeOk 3 = true)
    {c : String} {s t : SubscriptionObj} (hs : s.customer = some c)
    (ht : t.customer = some c) (db : List User) :
    (handleSubUpdatedCreated be t (handleSubUpdatedCreated be s db).2).2
      = (handleSubUpdatedCreated be t db).2 := by
  cases hfind : findUserByCustomerID db c with
  | none =>
    rw [applySubUpdated_none hs hfind]
  | some user =>
    rw [applySubUpdated_some hs hfind]
    have hwr : dbWrite (be.writeOk 3) db user.id
        (fun u => updateSubscriptionData u s.id (derivePlanID s.itemPrices "")
          s.status (some s.currentPeriodEnd))
        = dbUpdateById db user.id
          (fun u => updateSubscriptionData u s.id (derivePlanID s.itemPrices "")
            s.status (some s.currentPeriodEnd)) := by
      simp [dbWrite, hw]
    rw [hwr]
    have hfind2 : findUserByCustomerID (dbUpdateById db user.id
        (fun u => updateSubscriptionData u s.id (derivePlanID s.itemPrices "")
          s.status (some s.currentPeriodEnd))) c
        = some (updateSubscriptionData user s.id (derivePlanID s.itemPrices "")
            s.status (some s.currentPeriodEnd)) := by
      rw [@findCustomer_dbUpdateById db user.id
        (fun u => updateSubscriptionData u s.id (derivePlanID s.itemPrices "")
          s.status (some s.currentPeriodEnd)) c (fun _ => rfl), hfind]
      simp
    rw [applySubUpdated_some ht hfind2, applySubUpdated_some ht hfind]
    simp only [dbWrite, hw, if_true, updateSubscriptionData_id]
    rw [@dbUpdateById_twice db user.id
      (fun u => updateSubscriptionData u s.id (derivePlanID s.itemPrices "")
        s.status (some s.currentPeriodEnd))
      (fun u => updateSubscriptionData u t.id (derivePlanID t.itemPrices "")
        t.status (some t.currentPeriodEnd)) (fun _ => rfl)]
    rfl

theorem reachable_exDb1 : ReachableDB exDb1 :=
  ReachableDB.step exBE (.checkoutSub 1) (runOp exBE (.register 1) [])
    (ReachableDB.step exBE (.register 1) [] ReachableDB.nil)

theorem reachable_exDb2 : ReachableDB exDb2 :=
  ReachableDB.step exBE (.webhook (some exDeletedEv)) exDb1 reachable_exDb1

theorem handleCheckoutCompleted_fst (be : StripeBackend)
    (sess : CheckoutSessionObj) (db : List User) :
    (handleCheckoutCompleted be sess db).1 = .received := by
  unfold handleCheckoutCompleted
  repeat' split
  all_goals rfl

theorem handleSubUpdatedCreated_fst (be : StripeBackend) (s : SubscriptionObj)
    (db : List User) : (handleSubUpdatedCreated be s db).1 = .received := by
  unfold handleSubUpdatedCreated
  repeat' split
  all_goals rfl

theorem handleSubDeleted_fst (be : StripeBackend) (s : SubscriptionObj)
    (db : List User) : (handleSubDeleted be s db).1 = .received := by
  unfold handleSubDeleted
  repeat' split
  all_goals rfl

theorem handlePMAttached_fst (be : StripeBackend) (pm : PaymentMethodObj)
    (db : List User) : (handlePMAttached be pm db).1 = .received := by
  unfold handlePMAttached
  repeat' split
  all_goals rfl

theorem handleStripeEvent_fst_iff (be : StripeBackend) (ev : StripeEvent)
    (db : List User) :
    ((handleStripeEvent be ev db).1 = .received) ↔ payloadParses ev = true := by
  unfold handleStripeEvent payloadParses
  repeat' split
  all_goals
    simp [handleCheckoutCompleted_fst, handleSubUpdatedCreated_fst,
      handleSubDeleted_fst, handlePMAttached_fst]

theorem applyUpdated_foldl {be : StripeBackend} (hw : be.writeOk 3 = true)
    (c : String) :
    ∀ (es : List SubscriptionObj) (l : SubscriptionObj) (db : List User),
      (∀ s ∈ es, s.customer = some c) → l.customer = some c →
      es.getLast? = some l →
      List.foldl (fun d s => (handleSubUpdatedCreated be s d).2) db (es ++ [l])
        = (handleSubUpdatedCreated be l db).2 := by
  intro es
  induction es with
  | nil =>
    intro l db _ _ hlast
    simp at hlast
  | cons a t ih =>
    intro l db hes hl hlast
    rw [List.cons_append, List.foldl_cons]
    cases t with
    | nil =>
      have hal : a = l := by simpa using hlast
      subst hal
      simp only [List.nil_append, List.foldl_cons, List.foldl_nil]
      exact applyUpdated_twice hw (hes a (by simp)) (hes a (by simp)) db
    | cons b t2 =>
      have hlast' : (b :: t2).getLast? = some l := by
        rw [← hlast]
        rfl
      rw [ih l ((handleSubUpdatedCreated be a db).2)
        (fun s hs => hes s (List.mem_cons_of_mem a hs)) hl hlast']
      exact applyUpdated_twice hw (hes a (by simp)) hl db

theorem applySubDeleted_some {be : StripeBackend} {s : SubscriptionObj}
    {db : List User} {c : String} {user : User} (hs : s.customer = some c)
    (hfind : findUserByCustomerID db c = some user) :
    (handleSubDeleted be s db).2
      = dbWrite (be.writeOk 4) db user.id
        (fun u => updateSubscriptionData u "" "" "canceled" none) := by
  simp only [handleSubDeleted, hs, hfind]

theorem getSubscriptionHandler_isSome {be : StripeBackend} {db : List User}
    {uid : Nat}
    (hinv : ∀ u ∈ db, u.subscriptionID.isSome = true →
      u.currentPlanID.isSome = true ∧ u.subscriptionStatus.isSome = true) :
    (getSubscriptionHandler be db uid).isSome = true := by
  cases hfind : findUserByID db uid with
  | none => simp [getSubscriptionHandler, hfind]
  | some user =>
    cases hsub : user.subscriptionID with
    | none => simp [getSubscriptionHandler, hfind, hsub]
    | some sid =>
      have hps := hinv user (findUserByID_mem hfind) (by rw [hsub]; rfl)
      cases hget : be.subGet sid with
      | none =>
        cases hplan : user.currentPlanID with
        | none =>
          rw [hplan] at hps
          exact absurd hps.1 (by simp)
        | some plan =>
          cases hstat : user.subscriptionStatus with
          | none =>
            rw [hstat] at hps
            exact absurd hps.2 (by simp)
          | some st => simp [getSubscriptionHandler, hfind, hsub, hget, hplan, hstat]
      | some s =>
        cases hplan : user.currentPlanID with
        | none =>
          rw [hplan] at hps
          exact absurd hps.1 (by simp)
        | some plan => simp [getSubscriptionHandler, hfind, hsub, hget, hplan]

theorem cancelSubscriptionHandler_isSome {be : StripeBackend} {db : List User}
    {uid : Nat}
    (hinv : ∀ u ∈ db, u.subscriptionID.isSome = true →
      u.currentPlanID.isSome = true ∧ u.subscriptionStatus.isSome = true) :
    (cancelSubscriptionHandler be db uid).isSome = true := by
  cases hfind : findUserByID db uid with
  | none => simp [cancelSubscriptionHandler, hfind]
  | some user =>
    cases hsub : user.subscriptionID with
    | none => simp [cancelSubscriptionHandler, hfind, hsub]
    | some sid =>
      have hps := hinv user (findUserByID_mem hfind) (by rw [hsub]; rfl)
      cases hupd : be.subUpdate sid with
      | none => simp [cancelSubscriptionHandler, hfind, hsub, hupd]
      | some s =>
        cases hplan : user.currentPlanID with
        | none =>
          rw [hplan] at hps
          exact absurd hps.1 (by simp)
        | some plan =>
          cases hw6 : be.writeOk 6 with
          | false => simp [cancelSubscriptionHandler, hfind, hsub, hupd, hplan, hw6]
          | true => simp [cancelSubscriptionHandler, hfind, hsub, hupd, hplan, hw6]

/-- C1 counterexample: the claim says `User.UpdateStripeData` leaves the
stored default payment method unchanged when the supplied value is empty.
On the code it is false: at the concrete user `exPMUser`, whose default
payment method is `pm_1`, a call with an empty `defaultPM` overwrites the
field with the empty string. -/
theorem c1_counterexample :
    exPMUser.stripeDefaultPM = some "pm_1" ∧
    (updateStripeData exPMUser "cus_7" "").stripeDefaultPM = some "" ∧
    ¬ (updateStripeData exPMUser "cus_7" "").stripeDefaultPM
        = exPMUser.stripeDefaultPM := by
  decide

/-- C1 amended: `User.UpdateStripeData` unconditionally overwrites both the
customer id and the default payment method with the supplied values — also
when the supplied default payment method is empty — both on the in-memory
receiver and on every database row it updates. -/
theorem c1_overwrites_unconditionally :
    (∀ (u : User) (cid pm : String),
        (updateStripeData u cid pm).stripeDefaultPM = some pm ∧
        (updateStripeData u cid pm).stripeCustomerID = some cid) ∧
    (∀ (db : List User) (i : Nat) (cid pm : String),
        ∀ u' ∈ dbUpdateById db i (fun v => updateStripeData v cid pm),
          u'.id = i → u'.stripeDefaultPM = some pm ∧
          u'.stripeCustomerID = some cid) := by
  refine ⟨fun u cid pm => ⟨rfl, rfl⟩, ?_⟩
  intro db i cid pm u' hu' hid
  rcases mem_dbUpdateById.mp hu' with ⟨v, hv, h | h⟩
  · rw [h.2]
    exact ⟨rfl, rfl⟩
  · exfalso
    rw [h.2] at hid
    exact h.1 hid

/-- C1 witness: the amended claim evaluated at a concrete row update. -/
theorem c1_witness :
    (updateStripeData exPMUser "cus_7" "pm_2").stripeDefaultPM = some "pm_2" ∧
    (updateStripeData exPMUser "cus_7" "pm_2").stripeCustomerID = some "cus_7" :=
  c1_overwrites_unconditionally.2 [exPMUser] 7 "cus_7" "pm_2"
    (updateStripeData exPMUser "cus_7" "pm_2") (by decide) (by decide)

/-- C2: in every database reachable through the system's operations, a user
whose Stripe customer id is set keeps exactly that customer id in every row
with its primary key, across any further trace of checkout creations, cancel
and read requests, registrations and webhook deliveries, whatever the
provider and the per-write database outcomes do. -/
theorem c2_customer_id_immutable :
    ∀ db : List User, ReachableDB db →
    ∀ u ∈ db, ∀ c : String, u.stripeCustomerID = some c →
    ∀ ops : List (StripeBackend × SystemOp),
    ∀ u' ∈ runOps db ops, u'.id = u.id → u'.stripeCustomerID = some c := by
  intro db hdb u hu c hc ops u' hu' hid
  exact (custPreserved_runOps db ops (dbInv_reachable hdb) u hu c hc).2 u' hu' hid

/-- C2 witness: account 1 keeps customer id `cus_1` across a
subscription-updated webhook. -/
theorem c2_witness : exUpdatedUser.stripeCustomerID = some "cus_1" :=
  c2_customer_id_immutable exDb1 reachable_exDb1 exCheckoutUser (by decide)
    "cus_1" (by decide)
    [(exBE, .webhook (some ⟨"customer.subscription.updated", .subscription exUpdSub2⟩))]
    exUpdatedUser (by decide) (by decide)

/-- C3 counterexample: the claimed biconditional "subscriptionId set
(non-empty) iff subscriptionStatus ≠ none" fails on a reachable state: after
a `customer.subscription.deleted` event the handler stores the empty string
as subscription id together with status `canceled`, so the status is not
none while the id is not set non-empty. -/
theorem c3_counterexample :
    ReachableDB exDb2 ∧ exDeletedUser ∈ exDb2 ∧
    exDeletedUser.subscriptionStatus ≠ none ∧
    ¬ ((exDeletedUser.subscriptionID ≠ none ∧ exDeletedUser.subscriptionID ≠ some "")
        ↔ exDeletedUser.subscriptionStatus ≠ none) :=
  ⟨reachable_exDb2, by decide, by decide, by decide⟩

/-- C3 amended: in every reachable state the `SubscriptionID` pointer is set
exactly when the `SubscriptionStatus` pointer is set (the two fields are
always assigned together); the non-empty reading of "set" fails because the
deletion clear stores an empty id with status `canceled`. -/
theorem c3_subscription_pointer_biconditional :
    ∀ db : List User, ReachableDB db → ∀ u ∈ db,
      u.subscriptionID.isSome = u.subscriptionStatus.isSome :=
  fun db h u hu => ((dbInv_reachable h).2 u hu).1

/-- C3 witness: the amended biconditional at the cleared row of `exDb2`. -/
theorem c3_witness :
    exDeletedUser.subscriptionID.isSome = exDeletedUser.subscriptionStatus.isSome :=
  c3_subscription_pointer_biconditional exDb2 reachable_exDb2 exDeletedUser (by decide)

/-- C4: for any sequence of `customer.subscription.updated` events for the
same subscription (all carrying the same customer) applied in any order,
re-applying the last applied event once more yields exactly the database
obtained by applying just that last event alone — in particular the same
four-field projection — provided the store writes succeed. -/
theorem c4_updated_events_convergence (be : StripeBackend)
    (hw : be.writeOk 3 = true) (c : String) (es : List SubscriptionObj)
    (l : SubscriptionObj) (db : List User)
    (hes : ∀ s ∈ es, s.customer = some c) (hl : l.customer = some c)
    (hlast : es.getLast? = some l) :
    List.foldl (fun d s =>
        (handleStripeEvent be ⟨"customer.subscription.updated", .subscription s⟩ d).2)
      db (es ++ [l])
      = (handleStripeEvent be ⟨"customer.subscription.updated", .subscription l⟩ db).2 := by
  have hbr : ∀ (s : SubscriptionObj) (d : List User),
      handleStripeEvent be ⟨"customer.subscription.updated", .subscription s⟩ d
        = handleSubUpdatedCreated be s d := fun s d => rfl
  simp only [hbr]
  exact applyUpdated_foldl hw c es l db hes hl hlast

/-- C4 witness: two updates for subscription `sub_9` followed by a replay of
the last one equal applying the last one alone. -/
theorem c4_witness :
    List.foldl (fun d s =>
        (handleStripeEvent exBE ⟨"customer.subscription.updated", .subscription s⟩ d).2)
      exDb1 ([exUpdSub1, exUpdSub2] ++ [exUpdSub2])
      = (handleStripeEvent exBE
          ⟨"customer.subscription.updated", .subscription exUpdSub2⟩ exDb1).2 :=
  c4_updated_events_convergence exBE rfl "cus_1" [exUpdSub1, exUpdSub2] exUpdSub2
    exDb1 (by decide) (by decide) (by decide)

/-- C5: a cancel request by a user whose record has no `SubscriptionID`
answers the "no active subscription" error, leaves the database unchanged
and performs no provider call (the third component records whether
`sub.Update` was invoked). -/
theorem c5_cancel_without_subscription (be : StripeBackend) (db : List User)
    (uid : Nat) (u : User) (hfind : findUserByID db uid = some u)
    (hsub : u.subscriptionID = none) :
    cancelSubscriptionHandler be db uid
      = some (.noActiveSubscription, db, false) := by
  simp only [cancelSubscriptionHandler, hfind, hsub]

/-- C5 witness: cancel for a freshly registered account. -/
theorem c5_witness :
    cancelSubscriptionHandler exBE [blankUser 3] 3
      = some (.noActiveSubscription, [blankUser 3], false) :=
  c5_cancel_without_subscription exBE [blankUser 3] 3 (blankUser 3) (by decide) rfl

/-- C6: a verified `customer.subscription.deleted` event whose customer
resolves to a user clears, once the store write is applied, every row with
that user's key to exactly
`subscriptionId = ""`, `planId = ""`, `status = "canceled"`, `periodEnd = nil`,
regardless of the prior state. -/
theorem c6_deleted_event_full_clear (be : StripeBackend) (s : SubscriptionObj)
    (db : List User) (c : String) (u : User) (hs : s.customer = some c)
    (hfind : findUserByCustomerID db c = some u) (hw : be.writeOk 4 = true) :
    ∀ u' ∈ (handleStripeEvent be
        ⟨"customer.subscription.deleted", .subscription s⟩ db).2,
      u'.id = u.id →
      u'.subscriptionID = some "" ∧ u'.currentPlanID = some "" ∧
      u'.subscriptionStatus = some "canceled" ∧ u'.subscriptionEndsAt = none := by
  intro u' hu' hid
  have hbr : handleStripeEvent be
      ⟨"customer.subscription.deleted", .subscription s⟩ db
      = handleSubDeleted be s db := rfl
  rw [hbr, applySubDeleted_some hs hfind] at hu'
  rw [show dbWrite (be.writeOk 4) db u.id
        (fun v => updateSubscriptionData v "" "" "canceled" none)
      = dbUpdateById db u.id
        (fun v => updateSubscriptionData v "" "" "canceled" none) from by
    simp [dbWrite, hw]] at hu'
  rcases mem_dbUpdateById.mp hu' with ⟨v, hv, h | h⟩
  · rw [h.2]
    exact ⟨rfl, rfl, rfl, rfl⟩
  · exfalso
    rw [h.2] at hid
    exact h.1 hid

/-- C6 witness: the deletion event applied to `exDb1` clears account 1. -/
theorem c6_witness :
    exDeletedUser.subscriptionID = some "" ∧
    exDeletedUser.currentPlanID = some "" ∧
    exDeletedUser.subscriptionStatus = some "canceled" ∧
    exDeletedUser.subscriptionEndsAt = none :=
  c6_deleted_event_full_clear exBE exDeletedSub exDb1 "cus_1" exCheckoutUser rfl
    (by decide) rfl exDeletedUser (by decide) (by decide)

/-- C7: when `webhook.ConstructEvent` reports a signature failure, the
endpoint answers a 400 client error, the database is untouched and the
event-type dispatch is never reached (the third component of the result
records whether dispatch ran, and no per-type payload parse happens before
dispatch). -/
theorem c7_signature_failure_no_dispatch
    (constructEvent : String → String → String → Option StripeEvent)
    (payload sigHeader secret : String) (be : StripeBackend) (db : List User)
    (h : constructEvent payload sigHeader secret = none) :
    stripeWebhookHandler constructEvent payload sigHeader secret be db
      = (.badRequest, db, false) := by
  unfold stripeWebhookHandler
  rw [h]

/-- C7 witness: a verifier that rejects everything. -/
theorem c7_witness :
    stripeWebhookHandler exVerifyFail "payload" "sig" "whsec" exBE exDb1
      = (.badRequest, exDb1, false) :=
  c7_signature_failure_no_dispatch exVerifyFail "payload" "sig" "whsec" exBE exDb1 rfl

/-- C8: a verified `checkout.session.completed` event whose payment status is
not "paid" is acknowledged with `{received: true}` and leaves the whole
database — in particular the resolved user's Billing Record — unchanged. -/
theorem c8_unpaid_checkout_noop (be : StripeBackend) (sess : CheckoutSessionObj)
    (db : List User) (hps : ¬ sess.paymentStatus = "paid") :
    handleStripeEvent be ⟨"checkout.session.completed", .checkoutSession sess⟩ db
      = (.received, db) := by
  show handleCheckoutCompleted be sess db = (.received, db)
  unfold handleCheckoutCompleted
  repeat' split
  all_goals first | rfl | (exact absurd (by assumption) hps)

/-- C8 witness: an unpaid completed-checkout session is a no-op on `exDb1`. -/
theorem c8_witness :
    handleStripeEvent exBE
        ⟨"checkout.session.completed", .checkoutSession exUnpaidSess⟩ exDb1
      = (.received, exDb1) :=
  c8_unpaid_checkout_noop exBE exUnpaidSess exDb1 (by decide)

/-- C9: the webhook endpoint answers `{received: true}` exactly when
signature verification yields an event whose per-type payload parses;
otherwise it answers a client error.  The equivalence is quantified over
every provider behaviour and every database-write outcome, so
handler-internal failures (such as a failed store update) still yield
`{received: true}`, as do no-op events, unresolvable users and unrecognized
event types. -/
theorem c9_ack_iff_verified_and_parsed
    (constructEvent : String → String → String → Option StripeEvent)
    (payload sigHeader secret : String) (be : StripeBackend) (db : List User) :
    ((stripeWebhookHandler constructEvent payload sigHeader secret be db).1
        = .received)
      ↔ ∃ ev, constructEvent payload sigHeader secret = some ev
          ∧ payloadParses ev = true := by
  cases h : constructEvent payload sigHeader secret with
  | none => simp [stripeWebhookHandler, h]
  | some ev => simp [stripeWebhookHandler, h, handleStripeEvent_fst_iff]

/-- C10: in every reachable state, a row with `SubscriptionID` set has
`CurrentPlanID` and `SubscriptionStatus` set (the four subscription fields
are only ever assigned together by `User.UpdateSubscriptionData`); and under
that per-row property the pointer dereferences of `GetSubscriptionHandler`
(live and fallback paths) and `CancelSubscriptionHandler` behind their
`SubscriptionID != nil` checks never hit a nil pointer (the handlers, which
return `none` exactly on a nil dereference, always return a value). -/
theorem c10_no_nil_pointer_dereference :
    (∀ db : List User, ReachableDB db → ∀ u ∈ db,
        u.subscriptionID.isSome = true →
        u.currentPlanID.isSome = true ∧ u.subscriptionStatus.isSome = true) ∧
    (∀ (be : StripeBackend) (db : List User) (uid : Nat),
        (∀ u ∈ db, u.subscriptionID.isSome = true →
          u.currentPlanID.isSome = true ∧ u.subscriptionStatus.isSome = true) →
        (getSubscriptionHandler be db uid).isSome = true ∧
        (cancelSubscriptionHandler be db uid).isSome = true) := by
  constructor
  · intro db h u hu hsub
    have hinv := (dbInv_reachable h).2 u hu
    refine ⟨?_, ?_⟩
    · rw [← hinv.2.1]
      exact hsub
    · rw [← hinv.1]
      exact hsub
  · intro be db uid hinv
    exact ⟨getSubscriptionHandler_isSome hinv, cancelSubscriptionHandler_isSome hinv⟩

/-- C10 witness: the invariant and the handlers' totality at the reachable
database `exDb2`, whose row has `SubscriptionID` set. -/
theorem c10_witness :
    (exDeletedUser.currentPlanID.isSome = true ∧
      exDeletedUser.subscriptionStatus.isSome = true) ∧
    (getSubscriptionHandler exBE exDb2 1).isSome = true :=
  ⟨c10_no_nil_pointer_dereference.1 exDb2 reachable_exDb2 exDeletedUser
      (by decide) (by decide),
   (c10_no_nil_pointer_dereference.2 exBE exDb2 1 (by decide)).1⟩

end ThinkInk
